import Mathlib

/-!
Shallow embedding of the gym-mats cart backend (src/schemas.py and
src/main.py).  The document store is modelled as two in-memory lists
(collections `product` and `cart`), `find_one` as a first-match scan,
and the route handlers `add_to_cart` / `get_cart` as pure functions on
this store.  Python decimal price literals are embedded as rationals
(no arithmetic is ever performed on them: they are only copied), and
Python ints as `Int`.
-/

/-- schemas.py `Image`: url and optional alt text. -/
structure Image where
  url : String
  alt : Option String
deriving DecidableEq

/-- schemas.py `Variant`: one purchasable variant of a product. -/
structure Variant where
  sku : String
  thickness_mm : Int
  size : String
  color : String
  price : ℚ
  stock : Int
deriving DecidableEq

/-- schemas.py `FAQItem`. -/
structure FAQItem where
  question : String
  answer : String
deriving DecidableEq

/-- schemas.py `Product`: the `product` collection schema.  `specs` is a
string-to-string dict, embedded as an association list. -/
structure Product where
  title : String
  slug : String
  subtitle : Option String
  description : Option String
  base_price : ℚ
  category : String
  images : List Image
  variants : List Variant
  specs : List (String × String)
  uvps : List String
  faqs : List FAQItem
  rating : Option ℚ
  reviews_count : Option Int
  in_stock : Bool
deriving DecidableEq

/-- schemas.py `CartItem`: the denormalized snapshot stored inside a cart.
`selected_options` is a string-to-string dict, embedded as an
association list in insertion order. -/
structure CartItem where
  product_slug : String
  sku : String
  quantity : Int
  price : ℚ
  title : String
  image : Option String
  selected_options : List (String × String)
deriving DecidableEq

/-- schemas.py `Cart`: the `cart` collection schema. -/
structure Cart where
  cart_id : String
  items : List CartItem
  currency : String
deriving DecidableEq

/-- main.py `AddToCartRequest` (lines 134-138). -/
structure AddToCartRequest where
  cart_id : String
  product_slug : String
  sku : String
  quantity : Int
deriving DecidableEq

/-- The document store: the `product` and `cart` collections. -/
structure Store where
  products : List Product
  carts : List Cart
deriving DecidableEq

/-- The two HTTPException(404) outcomes of `add_to_cart`
(main.py lines 148 and 153). -/
inductive AddErr where
  | productNotFound
  | variantNotFound
deriving DecidableEq

/-- `db["product"].find_one(\x7b"slug": slug\x7d)`: first document whose slug
matches. -/
def findProduct (ps : List Product) (slug : String) : Option Product :=
  ps.find? (fun p => p.slug == slug)

/-- `db["cart"].find_one(\x7b"cart_id": cid\x7d)`: first document whose
cart_id matches. -/
def findCart (cs : List Cart) (cid : String) : Option Cart :=
  cs.find? (fun c => c.cart_id == cid)

/-- `db["cart"].update_one(\x7b"_id": cart["_id"]\x7d, ...)`: replace the
document that `find_one` returned, i.e. the first one whose cart_id
matches. -/
def replaceCart : List Cart → String → Cart → List Cart
  | [], _, _ => []
  | c :: rest, cid, c' =>
    if c.cart_id == cid then c' :: rest else c :: replaceCart rest cid c'

/-- The candidate item dict built in main.py lines 157-169.  `image` is
`(product.get("images") or [\x7b\x7d])[0].get("url")`: the first image's url
when images is nonempty, else None. -/
def mkItem (payload : AddToCartRequest) (product : Product) (variant : Variant) : CartItem :=
  { product_slug := payload.product_slug
    sku := payload.sku
    quantity := payload.quantity
    price := variant.price
    title := product.title
    image := match product.images with
      | [] => none
      | img :: _ => some img.url
    selected_options :=
      [("Thickness", toString variant.thickness_mm ++ "mm"),
       ("Size", variant.size),
       ("Color", variant.color)] }

/-- The for-loop of main.py lines 173-178: scan the items for the first
one with the requested sku and add the requested quantity to it;
`none` when no item matches (the loop sets `updated = False`). -/
def bumpFirst : List CartItem → String → Int → Option (List CartItem)
  | [], _, _ => none
  | it :: rest, sku, qty =>
    if it.sku == sku then
      some ({ it with quantity := it.quantity + qty } :: rest)
    else
      match bumpFirst rest sku qty with
      | some rest' => some (it :: rest')
      | none => none

/-- main.py lines 171-180: merge into the first item with a matching sku,
else append the candidate at the end. -/
def mergeItems (items : List CartItem) (sku : String) (qty : Int) (item : CartItem) : List CartItem :=
  match bumpFirst items sku qty with
  | some items' => items'
  | none => items ++ [item]

/-- main.py `add_to_cart` (lines 141-185).  Returns the store after the
handler ran together with the error it raised, if any; error paths
raise before any write, so they return the store unchanged. -/
def add_to_cart (store : Store) (payload : AddToCartRequest) : Store × Option AddErr :=
  match findProduct store.products payload.product_slug with
  | none => (store, some AddErr.productNotFound)
  | some product =>
    match product.variants.find? (fun v => v.sku == payload.sku) with
    | none => (store, some AddErr.variantNotFound)
    | some variant =>
      let item := mkItem payload product variant
      match findCart store.carts payload.cart_id with
      | some cart =>
        let cart' := { cart with items := mergeItems cart.items payload.sku payload.quantity item }
        ({ store with carts := replaceCart store.carts payload.cart_id cart' }, none)
      | none =>
        ({ store with
             carts := store.carts ++ [{ cart_id := payload.cart_id, items := [item], currency := "USD" }] },
         none)

/-- The pydantic constraint on CartItem.quantity, schemas.py line 61:
`Field(1, ge=1)`. -/
def CartItem.pydValid (it : CartItem) : Bool :=
  decide (1 ≤ it.quantity)

/-- Validation performed by `Cart(**cart)`: every item must satisfy the
CartItem field constraints. -/
def Cart.pydValid (c : Cart) : Bool :=
  c.items.all CartItem.pydValid

/-- `Cart(**cart)` raising `pydantic.ValidationError` inside the handler. -/
inductive GetCartError where
  | validationError
deriving DecidableEq

/-- main.py `get_cart` (lines 188-196): absent cart resolves to an empty
Cart; a stored cart is re-validated by the `Cart(**cart)` constructor. -/
def get_cart (store : Store) (cart_id : String) : Except GetCartError Cart :=
  match findCart store.carts cart_id with
  | none => Except.ok { cart_id := cart_id, items := [], currency := "USD" }
  | some cart =>
    if Cart.pydValid cart then Except.ok cart
    else Except.error GetCartError.validationError

/-- Run a sequence of add_to_cart calls, stopping at the first error
(each call is one HTTP request). -/
def runAdds : Store → List AddToCartRequest → Store × Option AddErr
  | store, [] => (store, none)
  | store, r :: rs =>
    match add_to_cart store r with
    | (store', none) => runAdds store' rs
    | (store', some e) => (store', some e)

/-- The item list of the cart stored for `cid` ([] when absent). -/
def itemsOf (store : Store) (cid : String) : List CartItem :=
  match findCart store.carts cid with
  | some c => c.items
  | none => []

/-- The sku column of an item list. -/
def skusOf (items : List CartItem) : List String :=
  items.map (fun it => it.sku)

/-- Total quantity held by the items with sku `s`. -/
def sumQty : List CartItem → String → Int
  | [], _ => 0
  | it :: rest, s => (if it.sku = s then it.quantity else 0) + sumQty rest s

/-- Total quantity requested for sku `s` across a request sequence. -/
def totalQty : List AddToCartRequest → String → Int
  | [], _ => 0
  | r :: rest, s => (if r.sku = s then r.quantity else 0) + totalQty rest s

/-- One step of first-occurrence accumulation: a sku already seen leaves
the list unchanged, a new sku is appended at the end. -/
def addSku (acc : List String) (s : String) : List String :=
  if s ∈ acc then acc else acc ++ [s]

/-- The distinct skus of a trace, in order of first occurrence. -/
def firstOccurrences (trace : List String) : List String :=
  trace.foldl addSku []

/-- The product seeded by main.py `seed_product` (lines 49-120). -/
def seedProduct : Product :=
  { title := "Premium Rubber Gym Mat"
    slug := "rubber-gym-mat-pro"
    subtitle := some "Anti-slip, shock-absorbing flooring for serious lifters"
    description := some "Durable, dense rubber mats engineered to protect your floors and equipment. Low odor, easy to clean, and built for heavy use in home or commercial gyms."
    base_price := 49.99
    category := "Gym Mats"
    images :=
      [{ url := "/images/mat-1.jpg", alt := some "Gym mat close-up texture" },
       { url := "/images/mat-2.jpg", alt := some "Mat with barbell on top" },
       { url := "/images/mat-3.jpg", alt := some "Home gym setup with mats" }]
    variants :=
      [{ sku := "MAT10-BLK-100", thickness_mm := 10, size := "1m x 1m",
         color := "Black", price := 49.99, stock := 120 },
       { sku := "MAT15-BLK-100", thickness_mm := 15, size := "1m x 1m",
         color := "Black", price := 64.99, stock := 80 },
       { sku := "MAT20-GRY-100", thickness_mm := 20, size := "1m x 1m",
         color := "Speckled Grey", price := 79.99, stock := 50 }]
    specs :=
      [("Material", "Recycled vulcanized rubber"),
       ("Surface", "Anti-slip fine grain"),
       ("Hardness", "60 Shore A"),
       ("Smell", "Low-odor"),
       ("Maintenance", "Mop with mild detergent")]
    uvps :=
      ["Shock-absorbing protection for floors and equipment",
       "Anti-slip surface with low odor",
       "Precision-cut edges for seamless fit",
       "Easy clean, water-resistant finish",
       "Backed by 2-year commercial warranty"]
    faqs :=
      [{ question := "Can I cut the mats to fit my space?",
         answer := "Yes, use a sharp utility knife and straight edge to score and cut." },
       { question := "Do these reduce noise?",
         answer := "The dense rubber helps dampen sound from drops and footsteps." },
       { question := "Are they safe for basement floors?",
         answer := "Yes, they are water-resistant and safe on concrete." }]
    rating := some 4.9
    reviews_count := some 312
    in_stock := true }

/-- A store holding just the seeded product and no carts. -/
def seedStore : Store :=
  { products := [seedProduct], carts := [] }

/-! Helper lemmas about the store primitives. -/

theorem findCart_cart_id {cs : List Cart} {cid : String} {c : Cart}
    (h : findCart cs cid = some c) : c.cart_id = cid := by
  unfold findCart at h
  simpa using List.find?_some h

theorem findCart_none_not_match {cs : List Cart} {cid : String}
    (h : findCart cs cid = none) : ∀ c ∈ cs, c.cart_id ≠ cid := by
  unfold findCart at h
  intro c hm
  have := List.find?_eq_none.mp h c hm
  simpa using this

theorem findCart_append_single {cs : List Cart} {cid : String} {c : Cart}
    (h : findCart cs cid = none) (hc : c.cart_id = cid) :
    findCart (cs ++ [c]) cid = some c := by
  induction cs with
  | nil => simp [findCart, List.find?, hc]
  | cons d rest ih =>
    have hd : d.cart_id ≠ cid := findCart_none_not_match h d (by simp)
    have hrest : findCart rest cid = none := by
      unfold findCart at h ⊢
      simp only [List.find?] at h
      rw [beq_eq_false_iff_ne.mpr hd] at h
      exact h
    have := ih hrest
    unfold findCart at this ⊢
    simp only [List.cons_append, List.find?]
    rw [beq_eq_false_iff_ne.mpr hd]
    exact this

theorem findCart_replaceCart {cs : List Cart} {cid : String} {c c' : Cart}
    (h : findCart cs cid = some c) (hc' : c'.cart_id = cid) :
    findCart (replaceCart cs cid c') cid = some c' := by
  induction cs with
  | nil => simp [findCart, List.find?] at h
  | cons d rest ih =>
    by_cases hd : d.cart_id = cid
    · simp [replaceCart, beq_iff_eq.mpr hd, findCart, List.find?, beq_iff_eq.mpr hc']
    · have hb : (d.cart_id == cid) = false := beq_eq_false_iff_ne.mpr hd
      unfold findCart at h
      simp only [List.find?, hb] at h
      have := ih h
      simp only [replaceCart, hb, Bool.false_eq_true, if_false]
      unfold findCart at this ⊢
      simp only [List.find?, hb]
      exact this

theorem replaceCart_append_single {cs : List Cart} {cid : String} {c c' : Cart}
    (h : findCart cs cid = none) (hc : c.cart_id = cid) :
    replaceCart (cs ++ [c]) cid c' = cs ++ [c'] := by
  induction cs with
  | nil => simp [replaceCart, beq_iff_eq.mpr hc]
  | cons d rest ih =>
    have hd : d.cart_id ≠ cid := findCart_none_not_match h d (by simp)
    have hrest : findCart rest cid = none := by
      unfold findCart at h ⊢
      simp only [List.find?] at h
      rw [beq_eq_false_iff_ne.mpr hd] at h
      exact h
    simp only [List.cons_append, replaceCart, beq_eq_false_iff_ne.mpr hd,
      Bool.false_eq_true, if_false, List.cons.injEq, true_and]
    exact ih hrest

theorem bumpFirst_none_iff {items : List CartItem} {sku : String} {qty : Int} :
    bumpFirst items sku qty = none ↔ ∀ it ∈ items, it.sku ≠ sku := by
  induction items with
  | nil => simp [bumpFirst]
  | cons it rest ih =>
    by_cases h : it.sku = sku
    · simp only [bumpFirst, beq_iff_eq.mpr h, if_true]
      constructor
      · intro hn; cases hn
      · intro hall; exact absurd h (hall it (by simp))
    · simp only [bumpFirst, beq_eq_false_iff_ne.mpr h, Bool.false_eq_true, if_false]
      cases hr : bumpFirst rest sku qty with
      | some r =>
        simp only [reduceCtorEq, false_iff]
        intro hall
        have hnone := ih.mpr fun x hx => hall x (List.mem_cons_of_mem _ hx)
        rw [hr] at hnone
        cases hnone
      | none =>
        simp only [true_iff]
        intro x hx
        rcases List.mem_cons.mp hx with rfl | hx'
        · exact h
        · exact ih.mp hr x hx'

theorem skusOf_bumpFirst {items items' : List CartItem} {sku : String} {qty : Int}
    (h : bumpFirst items sku qty = some items') : skusOf items' = skusOf items := by
  induction items generalizing items' with
  | nil => simp [bumpFirst] at h
  | cons it rest ih =>
    by_cases hs : it.sku = sku
    · simp only [bumpFirst, beq_iff_eq.mpr hs, if_true, Option.some.injEq] at h
      subst h
      simp [skusOf]
    · simp only [bumpFirst, beq_eq_false_iff_ne.mpr hs, Bool.false_eq_true, if_false] at h
      cases hr : bumpFirst rest sku qty with
      | some r =>
        rw [hr] at h
        simp only [Option.some.injEq] at h
        subst h
        have h2 := ih hr
        unfold skusOf at h2 ⊢
        simp only [List.map_cons, h2]
      | none => rw [hr] at h; cases h

theorem sumQty_bumpFirst {items items' : List CartItem} {sku : String} {qty : Int}
    (h : bumpFirst items sku qty = some items') (s : String) :
    sumQty items' s = sumQty items s + (if s = sku then qty else 0) := by
  induction items generalizing items' with
  | nil => simp [bumpFirst] at h
  | cons it rest ih =>
    by_cases hs : it.sku = sku
    · simp only [bumpFirst, beq_iff_eq.mpr hs, if_true, Option.some.injEq] at h
      subst h
      by_cases hss : s = sku
      · simp [sumQty, hs, hss]; ring
      · have : it.sku ≠ s := fun he => hss (he ▸ hs.symm ▸ rfl)
        simp [sumQty, hss, this]
    · simp only [bumpFirst, beq_eq_false_iff_ne.mpr hs, Bool.false_eq_true, if_false] at h
      cases hr : bumpFirst rest sku qty with
      | some r =>
        rw [hr] at h
        simp only [Option.some.injEq] at h
        subst h
        simp only [sumQty, ih hr]
        ring
      | none => rw [hr] at h; cases h

theorem sumQty_append (l₁ l₂ : List CartItem) (s : String) :
    sumQty (l₁ ++ l₂) s = sumQty l₁ s + sumQty l₂ s := by
  induction l₁ with
  | nil => simp [sumQty]
  | cons it rest ih =>
    simp only [List.cons_append, sumQty]
    have ih' : sumQty (rest.append l₂) s = sumQty rest s + sumQty l₂ s := ih
    rw [ih']
    ring

theorem skusOf_mergeItems {items : List CartItem} {sku : String} {qty : Int} {item : CartItem}
    (hi : item.sku = sku) :
    skusOf (mergeItems items sku qty item) = addSku (skusOf items) sku := by
  unfold mergeItems
  cases hb : bumpFirst items sku qty with
  | some items' =>
    have hmem : sku ∈ skusOf items := by
      by_contra hmem
      have : ∀ it ∈ items, it.sku ≠ sku := by
        intro x hx he
        exact hmem (List.mem_map.mpr ⟨x, hx, he⟩)
      rw [bumpFirst_none_iff.mpr this] at hb
      cases hb
    rw [skusOf_bumpFirst hb, addSku, if_pos hmem]
  | none =>
    have hall := bumpFirst_none_iff.mp hb
    have hmem : sku ∉ skusOf items := by
      intro hmem
      obtain ⟨x, hx, he⟩ := List.mem_map.mp hmem
      exact hall x hx he
    rw [addSku, if_neg hmem]
    simp [skusOf, hi]

theorem sumQty_mergeItems {items : List CartItem} {sku : String} {qty : Int} {item : CartItem}
    (hi : item.sku = sku) (hq : item.quantity = qty) (s : String) :
    sumQty (mergeItems items sku qty item) s = sumQty items s + (if s = sku then qty else 0) := by
  unfold mergeItems
  cases hb : bumpFirst items sku qty with
  | some items' => exact sumQty_bumpFirst hb s
  | none =>
    rw [sumQty_append]
    congr 1
    by_cases hss : s = sku
    · subst hss
      simp [sumQty, hi, hq]
    · have hne : item.sku ≠ s := fun he => hss (he.symm.trans hi)
      simp [sumQty, hss, hne]

theorem sumQty_of_not_mem {items : List CartItem} {s : String}
    (h : s ∉ skusOf items) : sumQty items s = 0 := by
  induction items with
  | nil => rfl
  | cons it rest ih =>
    have h1 : it.sku ≠ s := by
      intro he
      exact h (by simp [skusOf, he])
    have h2 : s ∉ skusOf rest := by
      intro hm
      exact h (by simp [skusOf] at hm ⊢; exact Or.inr hm)
    simp [sumQty, h1, ih h2]

theorem sumQty_eq_quantity {items : List CartItem} (hnd : (skusOf items).Nodup)
    {it : CartItem} (hm : it ∈ items) : sumQty items it.sku = it.quantity := by
  induction items with
  | nil => cases hm
  | cons hd rest ih =>
    have hnd' : (skusOf rest).Nodup ∧ hd.sku ∉ skusOf rest := by
      unfold skusOf at hnd ⊢
      simp only [List.map_cons, List.nodup_cons] at hnd
      exact ⟨hnd.2, hnd.1⟩
    rcases List.mem_cons.mp hm with rfl | hm'
    · have : sumQty rest it.sku = 0 := sumQty_of_not_mem hnd'.2
      simp [sumQty, this]
    · have hne : hd.sku ≠ it.sku := by
        intro he
        exact hnd'.2 (he ▸ List.mem_map.mpr ⟨it, hm', rfl⟩)
      simp [sumQty, hne, ih hnd'.1 hm']

theorem mem_addSku {acc : List String} {t s : String} :
    s ∈ addSku acc t ↔ s ∈ acc ∨ s = t := by
  unfold addSku
  by_cases h : t ∈ acc
  · simp only [h, if_true]
    constructor
    · exact Or.inl
    · rintro (hs | rfl)
      · exact hs
      · exact h
  · simp [h]

theorem nodup_addSku {acc : List String} {t : String} (h : acc.Nodup) :
    (addSku acc t).Nodup := by
  unfold addSku
  by_cases hm : t ∈ acc
  · simpa [hm]
  · simp only [hm, if_false]
    rw [List.nodup_append]
    refine ⟨h, List.nodup_singleton t, ?_⟩
    intro a ha hb
    rw [List.mem_singleton] at hb
    exact hm (hb ▸ ha)

theorem mem_foldl_addSku (trace : List String) :
    ∀ acc s, s ∈ List.foldl addSku acc trace ↔ s ∈ acc ∨ s ∈ trace := by
  induction trace with
  | nil => simp
  | cons t ts ih =>
    intro acc s
    rw [List.foldl_cons, ih, mem_addSku]
    simp only [List.mem_cons]
    tauto

theorem nodup_foldl_addSku (trace : List String) :
    ∀ acc : List String, acc.Nodup → (List.foldl addSku acc trace).Nodup := by
  induction trace with
  | nil => intro acc h; simpa
  | cons t ts ih =>
    intro acc h
    rw [List.foldl_cons]
    exact ih _ (nodup_addSku h)

/-- The sku of the candidate item is the requested sku. -/
theorem mkItem_sku (payload : AddToCartRequest) (product : Product) (variant : Variant) :
    (mkItem payload product variant).sku = payload.sku := rfl

/-- The quantity of the candidate item is the requested quantity. -/
theorem mkItem_quantity (payload : AddToCartRequest) (product : Product) (variant : Variant) :
    (mkItem payload product variant).quantity = payload.quantity := rfl

/-- Characterization of one successful add_to_cart call: it resolves a
product and a variant, leaves the product collection alone, and the
item list stored for the request's cart_id becomes the merge of the
previous item list with the candidate snapshot. -/
theorem add_to_cart_ok {store : Store} {r : AddToCartRequest}
    (h : (add_to_cart store r).2 = none) :
    ∃ product variant,
      findProduct store.products r.product_slug = some product ∧
      product.variants.find? (fun v => v.sku == r.sku) = some variant ∧
      (add_to_cart store r).1.products = store.products ∧
      itemsOf (add_to_cart store r).1 r.cart_id =
        mergeItems (itemsOf store r.cart_id) r.sku r.quantity (mkItem r product variant) := by
  cases hp : findProduct store.products r.product_slug with
  | none => simp [add_to_cart, hp] at h
  | some product =>
    cases hv : product.variants.find? (fun v => v.sku == r.sku) with
    | none => simp [add_to_cart, hp, hv] at h
    | some variant =>
      cases hc : findCart store.carts r.cart_id with
      | some cart =>
        have hcid : cart.cart_id = r.cart_id := findCart_cart_id hc
        refine ⟨product, variant, rfl, hv, ?_, ?_⟩
        · simp [add_to_cart, hp, hv, hc]
        · have hfind : findCart (add_to_cart store r).1.carts r.cart_id =
              some { cart with items := mergeItems cart.items r.sku r.quantity (mkItem r product variant) } := by
            simp only [add_to_cart, hp, hv, hc]
            exact findCart_replaceCart hc hcid
          unfold itemsOf
          rw [hfind, hc]
      | none =>
        refine ⟨product, variant, rfl, hv, ?_, ?_⟩
        · simp [add_to_cart, hp, hv, hc]
        · have hfind : findCart (add_to_cart store r).1.carts r.cart_id =
              some { cart_id := r.cart_id, items := [mkItem r product variant], currency := "USD" } := by
            simp only [add_to_cart, hp, hv, hc]
            exact findCart_append_single hc rfl
          unfold itemsOf
          rw [hfind, hc]
          rfl

/-- Invariant of a successful request sequence against one cart_id: the
product collection is untouched, the sku column evolves by
first-occurrence accumulation, and per-sku quantities accumulate. -/
theorem runAdds_ok_invariant {cid : String} :
    ∀ (reqs : List AddToCartRequest) (store : Store),
      (∀ r ∈ reqs, r.cart_id = cid) → (runAdds store reqs).2 = none →
      (runAdds store reqs).1.products = store.products ∧
      skusOf (itemsOf (runAdds store reqs).1 cid) =
        List.foldl addSku (skusOf (itemsOf store cid)) (reqs.map (fun r => r.sku)) ∧
      ∀ s, sumQty (itemsOf (runAdds store reqs).1 cid) s =
        sumQty (itemsOf store cid) s + totalQty reqs s := by
  intro reqs
  induction reqs with
  | nil =>
    intro store _ _
    refine ⟨rfl, rfl, ?_⟩
    intro s
    simp [runAdds, totalQty]
  | cons r rs ih =>
    intro store hcid hok
    cases ha : add_to_cart store r with
    | mk store' oe =>
      cases oe with
      | some e =>
        exfalso
        simp [runAdds, ha] at hok
      | none =>
        have hrun : runAdds store (r :: rs) = runAdds store' rs := by
          simp [runAdds, ha]
        rw [hrun] at hok ⊢
        obtain ⟨p, v, hp, hv, hprod, hitems⟩ :=
          add_to_cart_ok (show (add_to_cart store r).2 = none by rw [ha])
        have h1 : (add_to_cart store r).1 = store' := by rw [ha]
        rw [h1] at hprod hitems
        have hcr : r.cart_id = cid := hcid r (by simp)
        rw [hcr] at hitems
        obtain ⟨ihprod, ihsku, ihsum⟩ :=
          ih store' (fun x hx => hcid x (List.mem_cons_of_mem _ hx)) hok
        refine ⟨?_, ?_, ?_⟩
        · rw [ihprod, hprod]
        · rw [ihsku, hitems, skusOf_mergeItems (mkItem_sku r p v)]
          simp [List.map_cons, List.foldl_cons]
        · intro s
          rw [ihsum s, hitems, sumQty_mergeItems (mkItem_sku r p v) (mkItem_quantity r p v) s]
          simp only [totalQty]
          have hflip : (if s = r.sku then r.quantity else 0) = (if r.sku = s then r.quantity else 0) := by
            by_cases h : s = r.sku
            · simp [h]
            · have h2 : ¬ r.sku = s := fun he => h he.symm
              simp [h, h2]
          rw [hflip]
          ring

/-- C1: for every sequence of successful AddToCart calls against one
cart_id (starting with no stored cart), the resulting cart has
duplicate-free skus, its skus are exactly the distinct skus added, its
item count equals the number of distinct skus added, and each item's
quantity is the sum of all quantities requested for its sku. -/
theorem addToCart_seq_distinct_sku_quantities
    (store₀ : Store) (cid : String) (reqs : List AddToCartRequest)
    (hfresh : findCart store₀.carts cid = none)
    (hcid : ∀ r ∈ reqs, r.cart_id = cid)
    (hok : (runAdds store₀ reqs).2 = none) :
    (skusOf (itemsOf (runAdds store₀ reqs).1 cid)).Nodup ∧
    (∀ s, s ∈ skusOf (itemsOf (runAdds store₀ reqs).1 cid) ↔ s ∈ reqs.map (fun r => r.sku)) ∧
    (itemsOf (runAdds store₀ reqs).1 cid).length = (reqs.map (fun r => r.sku)).toFinset.card ∧
    ∀ it ∈ itemsOf (runAdds store₀ reqs).1 cid, it.quantity = totalQty reqs it.sku := by
  have hbase : itemsOf store₀ cid = [] := by unfold itemsOf; rw [hfresh]
  obtain ⟨hprod, hsku, hsum⟩ := runAdds_ok_invariant reqs store₀ hcid hok
  rw [hbase] at hsku hsum
  have hsku' : skusOf (itemsOf (runAdds store₀ reqs).1 cid) =
      firstOccurrences (reqs.map (fun r => r.sku)) := by
    rw [hsku]; rfl
  have hnd : (skusOf (itemsOf (runAdds store₀ reqs).1 cid)).Nodup := by
    rw [hsku']
    exact nodup_foldl_addSku _ [] List.nodup_nil
  have hmem : ∀ s, s ∈ skusOf (itemsOf (runAdds store₀ reqs).1 cid) ↔
      s ∈ reqs.map (fun r => r.sku) := by
    intro s
    rw [hsku', firstOccurrences, mem_foldl_addSku]
    simp
  refine ⟨hnd, hmem, ?_, ?_⟩
  · have h1 : (skusOf (itemsOf (runAdds store₀ reqs).1 cid)).toFinset =
        (reqs.map (fun r => r.sku)).toFinset := by
      apply Finset.ext
      intro a
      simp only [List.mem_toFinset]
      exact hmem a
    have h2 := List.toFinset_card_of_nodup hnd
    have h3 : (skusOf (itemsOf (runAdds store₀ reqs).1 cid)).length =
        (itemsOf (runAdds store₀ reqs).1 cid).length := by simp [skusOf]
    rw [← h3, ← h2, h1]
  · intro it hm
    have hs := hsum it.sku
    have h0 : sumQty ([] : List CartItem) it.sku = 0 := rfl
    rw [h0, zero_add] at hs
    rw [← hs]
    exact (sumQty_eq_quantity hnd hm).symm

/-- spec 8 scenario requests: add MAT10 (qty 2), MAT15 (qty 1), then
MAT10 again (qty 3), all for cart c1. -/
def reqsC1 : List AddToCartRequest :=
  [{ cart_id := "c1", product_slug := "rubber-gym-mat-pro", sku := "MAT10-BLK-100", quantity := 2 },
   { cart_id := "c1", product_slug := "rubber-gym-mat-pro", sku := "MAT15-BLK-100", quantity := 1 },
   { cart_id := "c1", product_slug := "rubber-gym-mat-pro", sku := "MAT10-BLK-100", quantity := 3 }]

/-- Witness for C1 at the seeded store and the spec 8 scenario. -/
theorem addToCart_seq_distinct_sku_quantities_witness :
    findCart seedStore.carts "c1" = none ∧
    (∀ r ∈ reqsC1, r.cart_id = "c1") ∧
    (runAdds seedStore reqsC1).2 = none ∧
    ((skusOf (itemsOf (runAdds seedStore reqsC1).1 "c1")).Nodup ∧
     (∀ s, s ∈ skusOf (itemsOf (runAdds seedStore reqsC1).1 "c1") ↔
        s ∈ reqsC1.map (fun r => r.sku)) ∧
     (itemsOf (runAdds seedStore reqsC1).1 "c1").length =
        (reqsC1.map (fun r => r.sku)).toFinset.card ∧
     ∀ it ∈ itemsOf (runAdds seedStore reqsC1).1 "c1", it.quantity = totalQty reqsC1 it.sku) :=
  ⟨rfl, by decide, rfl,
   addToCart_seq_distinct_sku_quantities seedStore "c1" reqsC1 rfl (by decide) rfl⟩

/-- C3: across a successful request sequence on a fresh cart_id, the sku
column of the resulting item list is the distinct skus in order of
first addition; and one more successful call on the resulting store
leaves the sku column unchanged when its sku is already present, and
appends the sku at the end when it is not. -/
theorem addToCart_order_by_first_add
    (store₀ : Store) (cid : String) (reqs : List AddToCartRequest)
    (hfresh : findCart store₀.carts cid = none)
    (hcid : ∀ r ∈ reqs, r.cart_id = cid)
    (hok : (runAdds store₀ reqs).2 = none) :
    skusOf (itemsOf (runAdds store₀ reqs).1 cid) =
      firstOccurrences (reqs.map (fun r => r.sku)) ∧
    ∀ r : AddToCartRequest, r.cart_id = cid →
      (add_to_cart (runAdds store₀ reqs).1 r).2 = none →
      skusOf (itemsOf (add_to_cart (runAdds store₀ reqs).1 r).1 cid) =
        (if r.sku ∈ skusOf (itemsOf (runAdds store₀ reqs).1 cid)
         then skusOf (itemsOf (runAdds store₀ reqs).1 cid)
         else skusOf (itemsOf (runAdds store₀ reqs).1 cid) ++ [r.sku]) := by
  have hbase : itemsOf store₀ cid = [] := by unfold itemsOf; rw [hfresh]
  obtain ⟨hprod, hsku, hsum⟩ := runAdds_ok_invariant reqs store₀ hcid hok
  rw [hbase] at hsku
  constructor
  · rw [hsku]; rfl
  · intro r hr hok2
    obtain ⟨p, v, hp, hv, hprod2, hitems2⟩ := add_to_cart_ok hok2
    rw [hr] at hitems2
    rw [hitems2, skusOf_mergeItems (mkItem_sku r p v)]
    rfl

/-- Witness for C3 at the seeded store and the spec 8 scenario. -/
theorem addToCart_order_by_first_add_witness :
    findCart seedStore.carts "c1" = none ∧
    (∀ r ∈ reqsC1, r.cart_id = "c1") ∧
    (runAdds seedStore reqsC1).2 = none ∧
    (skusOf (itemsOf (runAdds seedStore reqsC1).1 "c1") =
       firstOccurrences (reqsC1.map (fun r => r.sku)) ∧
     ∀ r : AddToCartRequest, r.cart_id = "c1" →
       (add_to_cart (runAdds seedStore reqsC1).1 r).2 = none →
       skusOf (itemsOf (add_to_cart (runAdds seedStore reqsC1).1 r).1 "c1") =
         (if r.sku ∈ skusOf (itemsOf (runAdds seedStore reqsC1).1 "c1")
          then skusOf (itemsOf (runAdds seedStore reqsC1).1 "c1")
          else skusOf (itemsOf (runAdds seedStore reqsC1).1 "c1") ++ [r.sku])) :=
  ⟨rfl, by decide, rfl,
   addToCart_order_by_first_add seedStore "c1" reqsC1 rfl (by decide) rfl⟩

theorem bumpFirst_split {pre post : List CartItem} {it : CartItem} {sku : String} {qty : Int}
    (hpre : ∀ x ∈ pre, x.sku ≠ sku) (hit : it.sku = sku) :
    bumpFirst (pre ++ it :: post) sku qty =
      some (pre ++ { it with quantity := it.quantity + qty } :: post) := by
  induction pre with
  | nil => simp [bumpFirst, beq_iff_eq.mpr hit]
  | cons x rest ih =>
    have hx : x.sku ≠ sku := hpre x (by simp)
    have hrest := ih fun y hy => hpre y (List.mem_cons_of_mem _ hy)
    simp only [List.cons_append, bumpFirst, beq_eq_false_iff_ne.mpr hx, Bool.false_eq_true,
      if_false]
    have hrest' : bumpFirst (rest.append (it :: post)) sku qty =
        some (rest ++ { it with quantity := it.quantity + qty } :: post) := hrest
    rw [hrest']

theorem mergeItems_append_of_no_match {items : List CartItem} {sku : String} {qty : Int}
    {item : CartItem} (h : ∀ x ∈ items, x.sku ≠ sku) :
    mergeItems items sku qty item = items ++ [item] := by
  unfold mergeItems
  rw [bumpFirst_none_iff.mpr h]

/-- Successful add_to_cart on a cart_id with no stored cart: a new cart
document is inserted at the end of the collection. -/
theorem add_to_cart_fresh (store : Store) (r : AddToCartRequest) (product : Product)
    (variant : Variant)
    (hp : findProduct store.products r.product_slug = some product)
    (hv : product.variants.find? (fun v => v.sku == r.sku) = some variant)
    (hfresh : findCart store.carts r.cart_id = none) :
    add_to_cart store r =
      ({ store with carts := store.carts ++
          [{ cart_id := r.cart_id, items := [mkItem r product variant], currency := "USD" }] },
       none) := by
  simp [add_to_cart, hp, hv, hfresh]

/-- Successful add_to_cart on a cart_id with a stored cart: the stored
document is replaced by the merged one. -/
theorem add_to_cart_found (store : Store) (r : AddToCartRequest) (product : Product)
    (variant : Variant) (cart : Cart)
    (hp : findProduct store.products r.product_slug = some product)
    (hv : product.variants.find? (fun v => v.sku == r.sku) = some variant)
    (hc : findCart store.carts r.cart_id = some cart) :
    add_to_cart store r =
      ({ store with
           carts :=
             replaceCart store.carts r.cart_id
               { cart with
                   items := mergeItems cart.items r.sku r.quantity (mkItem r product variant) } },
       none) := by
  simp [add_to_cart, hp, hv, hc]

/-- C2: when the requested sku already has an item in the stored cart
(first matching position split as pre ++ it :: post), a successful call
changes only that item's quantity: every other field of the item, and
every other item, are left exactly as stored. -/
theorem addToCart_merge_only_quantity
    (store : Store) (r : AddToCartRequest) (cart : Cart)
    (pre post : List CartItem) (it : CartItem)
    (hc : findCart store.carts r.cart_id = some cart)
    (hitems : cart.items = pre ++ it :: post)
    (hsku : it.sku = r.sku)
    (hpre : ∀ x ∈ pre, x.sku ≠ r.sku)
    (hok : (add_to_cart store r).2 = none) :
    itemsOf (add_to_cart store r).1 r.cart_id =
      pre ++ { it with quantity := it.quantity + r.quantity } :: post ∧
    ∃ it', itemsOf (add_to_cart store r).1 r.cart_id = pre ++ it' :: post ∧
      it'.quantity = it.quantity + r.quantity ∧
      it'.product_slug = it.product_slug ∧
      it'.sku = it.sku ∧
      it'.price = it.price ∧
      it'.title = it.title ∧
      it'.image = it.image ∧
      it'.selected_options = it.selected_options := by
  obtain ⟨p, v, hp, hv, hprod, hitems'⟩ := add_to_cart_ok hok
  have hio : itemsOf store r.cart_id = cart.items := by unfold itemsOf; rw [hc]
  rw [hio, hitems] at hitems'
  have hmerge : mergeItems (pre ++ it :: post) r.sku r.quantity (mkItem r p v) =
      pre ++ { it with quantity := it.quantity + r.quantity } :: post := by
    unfold mergeItems
    rw [bumpFirst_split hpre hsku]
  rw [hmerge] at hitems'
  exact ⟨hitems',
    ⟨{ it with quantity := it.quantity + r.quantity }, hitems', rfl, rfl, rfl, rfl, rfl, rfl, rfl⟩⟩

/-- A stored cart item for the C2 witness: the MAT10 snapshot with
quantity 2. -/
def itemC2 : CartItem :=
  { product_slug := "rubber-gym-mat-pro", sku := "MAT10-BLK-100", quantity := 2,
    price := 49.99, title := "Premium Rubber Gym Mat", image := some "/images/mat-1.jpg",
    selected_options := [("Thickness", "10mm"), ("Size", "1m x 1m"), ("Color", "Black")] }

/-- A store whose cart c1 already holds the MAT10 item. -/
def storeC2 : Store :=
  { products := [seedProduct],
    carts := [{ cart_id := "c1", items := [itemC2], currency := "USD" }] }

/-- The C2 witness request: add 3 more MAT10 to cart c1. -/
def reqC2 : AddToCartRequest :=
  { cart_id := "c1", product_slug := "rubber-gym-mat-pro", sku := "MAT10-BLK-100", quantity := 3 }

/-- Witness for C2: merging 3 more MAT10 into a cart already holding the
MAT10 snapshot only changes its quantity. -/
theorem addToCart_merge_only_quantity_witness :
    findCart storeC2.carts "c1" = some { cart_id := "c1", items := [itemC2], currency := "USD" } ∧
    ([itemC2] : List CartItem) = [] ++ itemC2 :: [] ∧
    itemC2.sku = reqC2.sku ∧
    (∀ x ∈ ([] : List CartItem), x.sku ≠ reqC2.sku) ∧
    (add_to_cart storeC2 reqC2).2 = none ∧
    (itemsOf (add_to_cart storeC2 reqC2).1 reqC2.cart_id =
       [] ++ { itemC2 with quantity := itemC2.quantity + reqC2.quantity } :: [] ∧
     ∃ it', itemsOf (add_to_cart storeC2 reqC2).1 reqC2.cart_id = [] ++ it' :: [] ∧
       it'.quantity = itemC2.quantity + reqC2.quantity ∧
       it'.product_slug = itemC2.product_slug ∧
       it'.sku = itemC2.sku ∧
       it'.price = itemC2.price ∧
       it'.title = itemC2.title ∧
       it'.image = itemC2.image ∧
       it'.selected_options = itemC2.selected_options) :=
  ⟨rfl, rfl, rfl, by simp, rfl,
   addToCart_merge_only_quantity storeC2 reqC2
     { cart_id := "c1", items := [itemC2], currency := "USD" } [] [] itemC2
     rfl rfl rfl (by simp) rfl⟩

/-- C4: get_cart on a cart_id with no stored cart succeeds and returns
the empty cart with that id and currency USD. -/
theorem get_cart_unknown_id (store : Store) (cid : String)
    (h : findCart store.carts cid = none) :
    get_cart store cid = Except.ok { cart_id := cid, items := [], currency := "USD" } := by
  unfold get_cart
  rw [h]

/-- Witness for C4: the seeded store holds no carts at all. -/
theorem get_cart_unknown_id_witness :
    findCart seedStore.carts "no-such-cart" = none ∧
    get_cart seedStore "no-such-cart" =
      Except.ok { cart_id := "no-such-cart", items := [], currency := "USD" } :=
  ⟨rfl, get_cart_unknown_id seedStore "no-such-cart" rfl⟩

/-- C5: an unknown product_slug fails with product-NotFound, and a known
slug with an unknown sku fails with variant-NotFound; in both cases the
returned store is exactly the input store (no cart inserted or
updated). -/
theorem addToCart_notFound_no_write (store : Store) (r : AddToCartRequest) :
    (findProduct store.products r.product_slug = none →
       add_to_cart store r = (store, some AddErr.productNotFound)) ∧
    (∀ product, findProduct store.products r.product_slug = some product →
       product.variants.find? (fun v => v.sku == r.sku) = none →
       add_to_cart store r = (store, some AddErr.variantNotFound)) := by
  constructor
  · intro h
    simp [add_to_cart, h]
  · intro p hp hv
    simp [add_to_cart, hp, hv]

/-- C5 witness request with an unknown slug. -/
def reqC5a : AddToCartRequest :=
  { cart_id := "c1", product_slug := "no-such-product", sku := "MAT10-BLK-100", quantity := 1 }

/-- C5 witness request with a known slug but unknown sku. -/
def reqC5b : AddToCartRequest :=
  { cart_id := "c1", product_slug := "rubber-gym-mat-pro", sku := "NO-SUCH-SKU", quantity := 1 }

/-- Witness for C5 at the seeded store. -/
theorem addToCart_notFound_no_write_witness :
    findProduct seedStore.products reqC5a.product_slug = none ∧
    add_to_cart seedStore reqC5a = (seedStore, some AddErr.productNotFound) ∧
    findProduct seedStore.products reqC5b.product_slug = some seedProduct ∧
    seedProduct.variants.find? (fun v => v.sku == reqC5b.sku) = none ∧
    add_to_cart seedStore reqC5b = (seedStore, some AddErr.variantNotFound) :=
  ⟨rfl, (addToCart_notFound_no_write seedStore reqC5a).1 rfl, rfl, rfl,
   (addToCart_notFound_no_write seedStore reqC5b).2 seedProduct rfl rfl⟩

/-- C6: a successful call whose sku has no item yet in the stored cart
appends a candidate snapshot whose fields are copied from the request,
the matched variant and the product: slug, sku and quantity from the
request, price from the variant, title from the product, image the
first image's url when one exists (else none), and selected_options
exactly the keys Thickness (formatted "Nmm"), Size and Color. -/
theorem addToCart_new_sku_snapshot
    (store : Store) (r : AddToCartRequest) (product : Product) (variant : Variant)
    (hp : findProduct store.products r.product_slug = some product)
    (hv : product.variants.find? (fun v => v.sku == r.sku) = some variant)
    (hno : ∀ x ∈ itemsOf store r.cart_id, x.sku ≠ r.sku) :
    (add_to_cart store r).2 = none ∧
    ∃ it, itemsOf (add_to_cart store r).1 r.cart_id = itemsOf store r.cart_id ++ [it] ∧
      it.product_slug = r.product_slug ∧
      it.sku = r.sku ∧
      it.quantity = r.quantity ∧
      it.price = variant.price ∧
      it.title = product.title ∧
      it.image = product.images.head?.map (fun i => i.url) ∧
      it.selected_options =
        [("Thickness", toString variant.thickness_mm ++ "mm"),
         ("Size", variant.size),
         ("Color", variant.color)] := by
  have hok : (add_to_cart store r).2 = none := by
    cases hc : findCart store.carts r.cart_id with
    | some cart => simp [add_to_cart, hp, hv, hc]
    | none => simp [add_to_cart, hp, hv, hc]
  obtain ⟨p, v, hp', hv', hprod, hitems⟩ := add_to_cart_ok hok
  rw [hp] at hp'
  have hpp : product = p := Option.some_inj.mp hp'
  subst hpp
  rw [hv] at hv'
  have hvv : variant = v := Option.some_inj.mp hv'
  subst hvv
  rw [mergeItems_append_of_no_match hno] at hitems
  refine ⟨hok, mkItem r product variant, hitems, rfl, rfl, rfl, rfl, rfl, ?_, rfl⟩
  rcases himg : product.images with _ | ⟨img, rest⟩ <;> simp [mkItem, himg]

/-- C6 witness request: first add of MAT20 to the (cartless) seeded
store. -/
def reqC6 : AddToCartRequest :=
  { cart_id := "c6", product_slug := "rubber-gym-mat-pro", sku := "MAT20-GRY-100", quantity := 4 }

/-- Witness for C6 at the seeded store. -/
theorem addToCart_new_sku_snapshot_witness :
    findProduct seedStore.products reqC6.product_slug = some seedProduct ∧
    seedProduct.variants.find? (fun v => v.sku == reqC6.sku) =
      some { sku := "MAT20-GRY-100", thickness_mm := 20, size := "1m x 1m",
             color := "Speckled Grey", price := 79.99, stock := 50 } ∧
    (∀ x ∈ itemsOf seedStore reqC6.cart_id, x.sku ≠ reqC6.sku) ∧
    ((add_to_cart seedStore reqC6).2 = none ∧
     ∃ it, itemsOf (add_to_cart seedStore reqC6).1 reqC6.cart_id =
         itemsOf seedStore reqC6.cart_id ++ [it] ∧
       it.product_slug = reqC6.product_slug ∧
       it.sku = reqC6.sku ∧
       it.quantity = reqC6.quantity ∧
       it.price = ({ sku := "MAT20-GRY-100", thickness_mm := 20, size := "1m x 1m",
                     color := "Speckled Grey", price := 79.99, stock := 50 } : Variant).price ∧
       it.title = seedProduct.title ∧
       it.image = seedProduct.images.head?.map (fun i => i.url) ∧
       it.selected_options =
         [("Thickness", toString ({ sku := "MAT20-GRY-100", thickness_mm := 20, size := "1m x 1m",
                                    color := "Speckled Grey", price := 79.99, stock := 50 } : Variant).thickness_mm ++ "mm"),
          ("Size", ({ sku := "MAT20-GRY-100", thickness_mm := 20, size := "1m x 1m",
                      color := "Speckled Grey", price := 79.99, stock := 50 } : Variant).size),
          ("Color", ({ sku := "MAT20-GRY-100", thickness_mm := 20, size := "1m x 1m",
                       color := "Speckled Grey", price := 79.99, stock := 50 } : Variant).color)]) :=
  ⟨rfl, rfl, by simp [itemsOf, findCart, seedStore, List.find?],
   addToCart_new_sku_snapshot seedStore reqC6 seedProduct
     { sku := "MAT20-GRY-100", thickness_mm := 20, size := "1m x 1m",
       color := "Speckled Grey", price := 79.99, stock := 50 }
     rfl rfl (by simp [itemsOf, findCart, seedStore, List.find?])⟩

/-- C9: get_cart on a stored cart re-validates it against the pydantic
schema: any stored item with quantity below 1 makes get_cart fail with
a validation error instead of returning the stored cart. -/
theorem get_cart_revalidates (store : Store) (cid : String) (cart : Cart) (it : CartItem)
    (hc : findCart store.carts cid = some cart)
    (hm : it ∈ cart.items) (hq : it.quantity < 1) :
    get_cart store cid = Except.error GetCartError.validationError := by
  have hfalse : Cart.pydValid cart = false := by
    unfold Cart.pydValid
    rw [List.all_eq_false]
    refine ⟨it, hm, ?_⟩
    simp only [CartItem.pydValid, decide_eq_true_eq]
    omega
  simp [get_cart, hc, hfalse]

/-- A stored item violating the quantity ≥ 1 schema constraint. -/
def badItem : CartItem :=
  { product_slug := "rubber-gym-mat-pro", sku := "MAT10-BLK-100", quantity := 0,
    price := 49.99, title := "Premium Rubber Gym Mat", image := none, selected_options := [] }

/-- A store holding a cart with the invalid item. -/
def badStore : Store :=
  { products := [seedProduct],
    carts := [{ cart_id := "c9", items := [badItem], currency := "USD" }] }

/-- Witness for C9 at the invalid stored cart. -/
theorem get_cart_revalidates_witness :
    findCart badStore.carts "c9" = some { cart_id := "c9", items := [badItem], currency := "USD" } ∧
    badItem ∈ ({ cart_id := "c9", items := [badItem], currency := "USD" } : Cart).items ∧
    badItem.quantity < 1 ∧
    get_cart badStore "c9" = Except.error GetCartError.validationError :=
  ⟨rfl, List.mem_singleton.mpr rfl, by decide,
   get_cart_revalidates badStore "c9" { cart_id := "c9", items := [badItem], currency := "USD" }
     badItem rfl (List.mem_singleton.mpr rfl) (by decide)⟩

/-- Two successful calls on a fresh cart_id with the same sku: the first
inserts a fresh cart with its candidate; the second merges into that
candidate, so the store ends with one cart holding one item whose
quantity is the sum of the two requested quantities and whose other
fields are the first call's snapshot. -/
theorem runAdds_pair_same_sku
    (store : Store) (r r' : AddToCartRequest) (p : Product) (v : Variant)
    (p' : Product) (v' : Variant)
    (hcart : r'.cart_id = r.cart_id) (hsku : r'.sku = r.sku)
    (hp : findProduct store.products r.product_slug = some p)
    (hv : p.variants.find? (fun x => x.sku == r.sku) = some v)
    (hp' : findProduct store.products r'.product_slug = some p')
    (hv' : p'.variants.find? (fun x => x.sku == r'.sku) = some v')
    (hfresh : findCart store.carts r.cart_id = none) :
    runAdds store [r, r'] =
      ({ store with carts := store.carts ++
          [{ cart_id := r.cart_id,
             items := [{ mkItem r p v with quantity := r.quantity + r'.quantity }],
             currency := "USD" }] }, none) := by
  have h1 := add_to_cart_fresh store r p v hp hv hfresh
  have hc0 : findCart (store.carts ++
      [{ cart_id := r.cart_id, items := [mkItem r p v], currency := "USD" }]) r'.cart_id =
      some { cart_id := r.cart_id, items := [mkItem r p v], currency := "USD" } := by
    rw [hcart]
    exact findCart_append_single hfresh rfl
  have h2 := add_to_cart_found
      { store with carts := store.carts ++
          [{ cart_id := r.cart_id, items := [mkItem r p v], currency := "USD" }] }
      r' p' v'
      { cart_id := r.cart_id, items := [mkItem r p v], currency := "USD" }
      hp' hv' hc0
  have hmg : mergeItems [mkItem r p v] r'.sku r'.quantity (mkItem r' p' v') =
      [{ mkItem r p v with quantity := r.quantity + r'.quantity }] := by
    simp [mergeItems, bumpFirst, hsku, mkItem]
  have hrc : replaceCart (store.carts ++
        [{ cart_id := r.cart_id, items := [mkItem r p v], currency := "USD" }]) r'.cart_id
        { cart_id := r.cart_id,
          items := [{ mkItem r p v with quantity := r.quantity + r'.quantity }],
          currency := "USD" } =
      store.carts ++
        [{ cart_id := r.cart_id,
           items := [{ mkItem r p v with quantity := r.quantity + r'.quantity }],
           currency := "USD" }] := by
    rw [hcart]
    exact replaceCart_append_single hfresh rfl
  rw [hmg] at h2
  simp only [runAdds, h1, h2, hrc]

/-- C7: on a fresh cart_id, adding quantity 2 then quantity 3 of one sku
yields exactly the same store as adding quantity 5 once, and the
resulting cart holds one item for that sku with quantity 5. -/
theorem addToCart_two_then_three_eq_five
    (store : Store) (cid slug sku : String) (product : Product) (variant : Variant)
    (hfresh : findCart store.carts cid = none)
    (hp : findProduct store.products slug = some product)
    (hv : product.variants.find? (fun v => v.sku == sku) = some variant) :
    runAdds store
        [{ cart_id := cid, product_slug := slug, sku := sku, quantity := 2 },
         { cart_id := cid, product_slug := slug, sku := sku, quantity := 3 }] =
      runAdds store [{ cart_id := cid, product_slug := slug, sku := sku, quantity := 5 }] ∧
    ∃ it, itemsOf (runAdds store
        [{ cart_id := cid, product_slug := slug, sku := sku, quantity := 2 },
         { cart_id := cid, product_slug := slug, sku := sku, quantity := 3 }]).1 cid = [it] ∧
      it.sku = sku ∧ it.quantity = 5 := by
  have hpair := runAdds_pair_same_sku store
      { cart_id := cid, product_slug := slug, sku := sku, quantity := 2 }
      { cart_id := cid, product_slug := slug, sku := sku, quantity := 3 }
      product variant product variant rfl rfl hp hv hp hv hfresh
  have hone := add_to_cart_fresh store
      { cart_id := cid, product_slug := slug, sku := sku, quantity := 5 } product variant hp hv hfresh
  constructor
  · rw [hpair]
    simp only [runAdds, hone]
    simp [mkItem]
  · refine ⟨{ mkItem { cart_id := cid, product_slug := slug, sku := sku, quantity := 2 }
         product variant with quantity := 2 + 3 }, ?_, rfl, rfl⟩
    rw [hpair]
    unfold itemsOf
    rw [show findCart ({ store with carts := store.carts ++
        [{ cart_id := cid,
           items := [{ mkItem { cart_id := cid, product_slug := slug, sku := sku, quantity := 2 }
               product variant with quantity := 2 + 3 }],
           currency := "USD" }] } : Store).carts cid =
        some { cart_id := cid,
               items := [{ mkItem { cart_id := cid, product_slug := slug, sku := sku, quantity := 2 }
                   product variant with quantity := 2 + 3 }],
               currency := "USD" } from findCart_append_single hfresh rfl]

/-- The MAT10-BLK-100 variant of the seeded product. -/
def varMAT10 : Variant :=
  { sku := "MAT10-BLK-100", thickness_mm := 10, size := "1m x 1m",
    color := "Black", price := 49.99, stock := 120 }

/-- Witness for C7 at the seeded store. -/
theorem addToCart_two_then_three_eq_five_witness :
    findCart seedStore.carts "c7" = none ∧
    findProduct seedStore.products "rubber-gym-mat-pro" = some seedProduct ∧
    seedProduct.variants.find? (fun v => v.sku == "MAT10-BLK-100") = some varMAT10 ∧
    (runAdds seedStore
        [{ cart_id := "c7", product_slug := "rubber-gym-mat-pro", sku := "MAT10-BLK-100", quantity := 2 },
         { cart_id := "c7", product_slug := "rubber-gym-mat-pro", sku := "MAT10-BLK-100", quantity := 3 }] =
      runAdds seedStore
        [{ cart_id := "c7", product_slug := "rubber-gym-mat-pro", sku := "MAT10-BLK-100", quantity := 5 }] ∧
     ∃ it, itemsOf (runAdds seedStore
        [{ cart_id := "c7", product_slug := "rubber-gym-mat-pro", sku := "MAT10-BLK-100", quantity := 2 },
         { cart_id := "c7", product_slug := "rubber-gym-mat-pro", sku := "MAT10-BLK-100", quantity := 3 }]).1 "c7" = [it] ∧
       it.sku = "MAT10-BLK-100" ∧ it.quantity = 5) :=
  ⟨rfl, rfl, rfl,
   addToCart_two_then_three_eq_five seedStore "c7" "rubber-gym-mat-pro" "MAT10-BLK-100"
     seedProduct varMAT10 rfl rfl rfl⟩

/-- C8: add_to_cart enforces no quantity precondition: for every integer
quantity (zero and negatives included) a call with a valid slug and sku
succeeds; a fresh cart stores the raw quantity, and a merge adds the
raw quantity to the stored one. -/
theorem addToCart_accepts_any_quantity
    (store : Store) (r : AddToCartRequest) (product : Product) (variant : Variant)
    (hp : findProduct store.products r.product_slug = some product)
    (hv : product.variants.find? (fun v => v.sku == r.sku) = some variant) :
    (add_to_cart store r).2 = none ∧
    (findCart store.carts r.cart_id = none →
       ∃ it, itemsOf (add_to_cart store r).1 r.cart_id = [it] ∧
         it.sku = r.sku ∧ it.quantity = r.quantity) ∧
    (∀ cart it rest, findCart store.carts r.cart_id = some cart →
       cart.items = it :: rest → it.sku = r.sku →
       ∃ it', itemsOf (add_to_cart store r).1 r.cart_id = it' :: rest ∧
         it'.sku = it.sku ∧ it'.quantity = it.quantity + r.quantity) := by
  have hok : (add_to_cart store r).2 = none := by
    cases hc : findCart store.carts r.cart_id with
    | some cart => simp [add_to_cart, hp, hv, hc]
    | none => simp [add_to_cart, hp, hv, hc]
  refine ⟨hok, ?_, ?_⟩
  · intro hfresh
    obtain ⟨p, v, hp', hv', hprod, hitems⟩ := add_to_cart_ok hok
    have hio : itemsOf store r.cart_id = [] := by unfold itemsOf; rw [hfresh]
    rw [hio] at hitems
    exact ⟨mkItem r p v, hitems, rfl, rfl⟩
  · intro cart it rest hc hitems0 hsku
    obtain ⟨p, v, hp', hv', hprod, hitems⟩ := add_to_cart_ok hok
    have hio : itemsOf store r.cart_id = it :: rest := by
      unfold itemsOf
      rw [hc]
      exact hitems0
    rw [hio] at hitems
    have hmerge : mergeItems (it :: rest) r.sku r.quantity (mkItem r p v) =
        { it with quantity := it.quantity + r.quantity } :: rest := by
      simp [mergeItems, bumpFirst, beq_iff_eq.mpr hsku]
    rw [hmerge] at hitems
    exact ⟨{ it with quantity := it.quantity + r.quantity }, hitems, rfl, rfl⟩

/-- The C8 witness request: a negative quantity. -/
def reqC8 : AddToCartRequest :=
  { cart_id := "c8", product_slug := "rubber-gym-mat-pro", sku := "MAT10-BLK-100", quantity := -3 }

/-- Witness for C8: a quantity of -3 is accepted and stored as -3. -/
theorem addToCart_accepts_any_quantity_witness :
    reqC8.quantity = -3 ∧
    findProduct seedStore.products reqC8.product_slug = some seedProduct ∧
    seedProduct.variants.find? (fun v => v.sku == reqC8.sku) = some varMAT10 ∧
    (itemsOf (add_to_cart seedStore reqC8).1 "c8").map (fun it => it.quantity) = [-3] ∧
    ((add_to_cart seedStore reqC8).2 = none ∧
     (findCart seedStore.carts reqC8.cart_id = none →
        ∃ it, itemsOf (add_to_cart seedStore reqC8).1 reqC8.cart_id = [it] ∧
          it.sku = reqC8.sku ∧ it.quantity = reqC8.quantity) ∧
     (∀ cart it rest, findCart seedStore.carts reqC8.cart_id = some cart →
        cart.items = it :: rest → it.sku = reqC8.sku →
        ∃ it', itemsOf (add_to_cart seedStore reqC8).1 reqC8.cart_id = it' :: rest ∧
          it'.sku = it.sku ∧ it'.quantity = it.quantity + reqC8.quantity)) :=
  ⟨rfl, rfl, rfl, by decide,
   addToCart_accepts_any_quantity seedStore reqC8 seedProduct varMAT10 rfl rfl⟩

/-- C10: the merge scan matches stored items by sku alone: two successful
calls with the same sku through two different slugs (each resolving a
variant with that sku) leave a single item that keeps the first call's
slug, price and title and carries the summed quantity. -/
theorem addToCart_merges_by_sku_ignoring_slug
    (store : Store) (cid slug₁ slug₂ sku : String) (q₁ q₂ : Int)
    (p₁ : Product) (v₁ : Variant) (p₂ : Product) (v₂ : Variant)
    (_hne : slug₁ ≠ slug₂)
    (hfresh : findCart store.carts cid = none)
    (hp₁ : findProduct store.products slug₁ = some p₁)
    (hv₁ : p₁.variants.find? (fun v => v.sku == sku) = some v₁)
    (hp₂ : findProduct store.products slug₂ = some p₂)
    (hv₂ : p₂.variants.find? (fun v => v.sku == sku) = some v₂) :
    (runAdds store
        [{ cart_id := cid, product_slug := slug₁, sku := sku, quantity := q₁ },
         { cart_id := cid, product_slug := slug₂, sku := sku, quantity := q₂ }]).2 = none ∧
    ∃ it, itemsOf (runAdds store
        [{ cart_id := cid, product_slug := slug₁, sku := sku, quantity := q₁ },
         { cart_id := cid, product_slug := slug₂, sku := sku, quantity := q₂ }]).1 cid = [it] ∧
      it.product_slug = slug₁ ∧ it.sku = sku ∧ it.quantity = q₁ + q₂ ∧
      it.price = v₁.price ∧ it.title = p₁.title := by
  have hpair := runAdds_pair_same_sku store
      { cart_id := cid, product_slug := slug₁, sku := sku, quantity := q₁ }
      { cart_id := cid, product_slug := slug₂, sku := sku, quantity := q₂ }
      p₁ v₁ p₂ v₂ rfl rfl hp₁ hv₁ hp₂ hv₂ hfresh
  constructor
  · rw [hpair]
  · refine ⟨{ mkItem { cart_id := cid, product_slug := slug₁, sku := sku, quantity := q₁ }
        p₁ v₁ with quantity := q₁ + q₂ }, ?_, rfl, rfl, rfl, rfl, rfl⟩
    rw [hpair]
    unfold itemsOf
    rw [show findCart ({ store with carts := store.carts ++
        [{ cart_id := cid,
           items := [{ mkItem { cart_id := cid, product_slug := slug₁, sku := sku, quantity := q₁ }
               p₁ v₁ with quantity := q₁ + q₂ }],
           currency := "USD" }] } : Store).carts cid =
        some { cart_id := cid,
               items := [{ mkItem { cart_id := cid, product_slug := slug₁, sku := sku, quantity := q₁ }
                   p₁ v₁ with quantity := q₁ + q₂ }],
               currency := "USD" } from findCart_append_single hfresh rfl]

/-- A product for the C10 witness whose single variant reuses the sku
SHARED-1. -/
def prodA : Product :=
  { title := "Mat A", slug := "mat-a", subtitle := none, description := none,
    base_price := 10, category := "Gym Mats", images := [],
    variants := [{ sku := "SHARED-1", thickness_mm := 10, size := "1m x 1m",
                   color := "Black", price := 10, stock := 5 }],
    specs := [], uvps := [], faqs := [], rating := none, reviews_count := none,
    in_stock := true }

/-- A second product, different slug, whose variant has the same sku
SHARED-1 at a different price. -/
def prodB : Product :=
  { title := "Mat B", slug := "mat-b", subtitle := none, description := none,
    base_price := 20, category := "Gym Mats", images := [],
    variants := [{ sku := "SHARED-1", thickness_mm := 20, size := "2m x 2m",
                   color := "Grey", price := 20, stock := 7 }],
    specs := [], uvps := [], faqs := [], rating := none, reviews_count := none,
    in_stock := true }

/-- A store holding both SHARED-1 products and no carts. -/
def storeC10 : Store :=
  { products := [prodA, prodB], carts := [] }

/-- Witness for C10: adding SHARED-1 via mat-a then via mat-b merges into
one item that keeps mat-a's slug, price and title. -/
theorem addToCart_merges_by_sku_ignoring_slug_witness :
    ("mat-a" : String) ≠ "mat-b" ∧
    findCart storeC10.carts "c10" = none ∧
    findProduct storeC10.products "mat-a" = some prodA ∧
    prodA.variants.find? (fun v => v.sku == "SHARED-1") =
      some { sku := "SHARED-1", thickness_mm := 10, size := "1m x 1m",
             color := "Black", price := 10, stock := 5 } ∧
    findProduct storeC10.products "mat-b" = some prodB ∧
    prodB.variants.find? (fun v => v.sku == "SHARED-1") =
      some { sku := "SHARED-1", thickness_mm := 20, size := "2m x 2m",
             color := "Grey", price := 20, stock := 7 } ∧
    ((runAdds storeC10
        [{ cart_id := "c10", product_slug := "mat-a", sku := "SHARED-1", quantity := 1 },
         { cart_id := "c10", product_slug := "mat-b", sku := "SHARED-1", quantity := 2 }]).2 = none ∧
     ∃ it, itemsOf (runAdds storeC10
        [{ cart_id := "c10", product_slug := "mat-a", sku := "SHARED-1", quantity := 1 },
         { cart_id := "c10", product_slug := "mat-b", sku := "SHARED-1", quantity := 2 }]).1 "c10" = [it] ∧
       it.product_slug = "mat-a" ∧ it.sku = "SHARED-1" ∧ it.quantity = 1 + 2 ∧
       it.price = ({ sku := "SHARED-1", thickness_mm := 10, size := "1m x 1m",
                     color := "Black", price := 10, stock := 5 } : Variant).price ∧
       it.title = prodA.title) :=
  ⟨by decide, rfl, rfl, rfl, rfl, rfl,
   addToCart_merges_by_sku_ignoring_slug storeC10 "c10" "mat-a" "mat-b" "SHARED-1" 1 2
     prodA { sku := "SHARED-1", thickness_mm := 10, size := "1m x 1m",
             color := "Black", price := 10, stock := 5 }
     prodB { sku := "SHARED-1", thickness_mm := 20, size := "2m x 2m",
             color := "Grey", price := 20, stock := 7 }
     (by decide) rfl rfl rfl rfl rfl⟩
